import Mathlib

/-
Verification of the domain-ownership validation engine of the sms-sites
repository: the DNS ownership resolver and HTTPS health prober
(src/services/domainValidation.js), the validation orchestrator
(routes/adminSites.js and routes/portal.js, POST .../validate-domain),
and the certificate-issuance gatekeeper (server.js, GET /caddy-ask).

JavaScript strings are modelled as Lean String, with the JS string methods
the source uses (trim, toLowerCase, split, startsWith, slice, regex tests)
given as structural functions over the underlying character list so that
every definition evaluates on concrete inputs. Machine I/O (DNS lookups,
HTTPS responses, database writes) is modelled by explicit environments and
write logs so the sequencing of effects is visible in the results.
-/

/- ## JS string methods used by the source -/

/-- Model of JS String.trim: drop whitespace from both ends. -/
def jsTrim (s : String) : String :=
  ⟨((s.data.dropWhile Char.isWhitespace).reverse.dropWhile Char.isWhitespace).reverse⟩

/-- Model of JS String.toLowerCase on hostname data (ASCII letters). -/
def jsToLower (s : String) : String :=
  ⟨s.data.map Char.toLower⟩

/-- Model of the JS regex replace of a single trailing dot (anchored \.$),
as used in normHost and in the EXPECTED_CNAME_TARGET setup. -/
def dropTrailingDot (s : String) : String :=
  if s.data.getLast? = some '.' then ⟨s.data.dropLast⟩ else s

/-- Model of JS s.split(the colon)[0]: everything before the first colon. -/
def beforeColon (s : String) : String :=
  ⟨s.data.takeWhile (fun c => c != ':')⟩

/-- Model of: if (d.startsWith(the www label)) d = d.slice(4). -/
def stripWww (s : String) : String :=
  if ("www.".data).isPrefixOf s.data then ⟨s.data.drop 4⟩ else s

/- ## Normalizations of domainValidation.js -/

/-- Model of normHost from domainValidation.js: String(h).trim().toLowerCase()
then strip one trailing dot. -/
def normHost (h : String) : String :=
  dropTrailingDot (jsToLower (jsTrim h))

/-- Model of EXPECTED_CNAME_TARGET = String(CNAME_URL).trim().replace of a
trailing dot, then .toLowerCase(). -/
def expectedTargetOfConfig (cnameUrl : String) : String :=
  jsToLower (dropTrailingDot (jsTrim cnameUrl))

/- ## DNS ownership resolver (checkDnsTarget) -/

/-- A DNS environment: the record sets the three resolvers return for a
hostname. A lookup error (NXDOMAIN, timeout) is modelled as the empty list,
exactly as the source's try/catch wrappers turn errors into no records. -/
structure DnsEnv where
  cname : String → List String
  a4 : String → List String
  a6 : String → List String

/-- One DNS lookup performed by checkDnsTarget, recorded in order so that
short-circuiting (no A/AAAA resolution after a definitive CNAME answer) is
provable. -/
inductive DnsQuery where
  | cname (host : String)
  | a4 (host : String)
  | a6 (host : String)
deriving DecidableEq, Repr

/-- Result record of checkDnsTarget: { ok, method, detail }. The empty-domain
early return carries no method field, hence Option. -/
structure DnsResult where
  ok : Bool
  method : Option String
  detail : String
deriving DecidableEq, Repr

/-- Model of resolveCnames: the CNAME record set, each target normalized with
normHost; an error yields []. -/
def resolveCnames (env : DnsEnv) (host : String) : List String :=
  (env.cname host).map normHost

/-- JS Set insertion: add an element unless already present (first occurrence
kept, insertion order preserved). -/
def setAdd (acc : List String) (x : String) : List String :=
  if acc.contains x then acc else acc ++ [x]

/-- Model of resolveIps: the union of the A and AAAA record sets, deduplicated
through a JS Set (A records inserted first). -/
def resolveIps (env : DnsEnv) (host : String) : List String :=
  (env.a4 host ++ env.a6 host).foldl setAdd []

/-- Detail string of the candidate-has-no-addresses failure. -/
def detailNoARecords (host : String) : String :=
  "No A/AAAA records found for " ++ host

/-- Detail string of the expected-target-has-no-addresses failure. -/
def detailExpectedNoA (expected : String) : String :=
  "Expected target " ++ expected ++ " has no A/AAAA records (cannot compare)"

/-- Detail string of the address-set-mismatch failure. -/
def detailAMismatch (hostIps expectedIps : List String) : String :=
  "A/AAAA was [" ++ String.intercalate ", " hostIps ++ "], expected one of [" ++
    String.intercalate ", " expectedIps ++ "] (Cloudflare proxy can cause this)"

/-- Model of checkDnsTarget from domainValidation.js, instrumented with the
ordered log of DNS lookups it performs. Parameters: the DNS environment, the
configured EXPECTED_CNAME_TARGET, and the candidate domain. -/
def checkDnsTarget (env : DnsEnv) (expected : String) (domain : String) :
    DnsResult × List DnsQuery :=
  let host := normHost domain
  if host = "" then
    ({ ok := false, method := none, detail := "Empty domain" }, [])
  else
    let cnames := resolveCnames env host
    if cnames ≠ [] then
      if cnames.any (fun c => c == expected) then
        ({ ok := true, method := some "cname",
           detail := "CNAME OK → " ++ String.intercalate ", " cnames },
         [DnsQuery.cname host])
      else
        ({ ok := false, method := some "cname",
           detail := "CNAME points to [" ++ String.intercalate ", " cnames ++
             "], expected " ++ expected },
         [DnsQuery.cname host])
    else
      let hostIps := resolveIps env host
      if hostIps = [] then
        ({ ok := false, method := some "a/aaaa", detail := detailNoARecords host },
         [DnsQuery.cname host, DnsQuery.a4 host, DnsQuery.a6 host])
      else
        let expectedIps := resolveIps env expected
        if expectedIps = [] then
          ({ ok := false, method := some "a/aaaa", detail := detailExpectedNoA expected },
           [DnsQuery.cname host, DnsQuery.a4 host, DnsQuery.a6 host,
            DnsQuery.a4 expected, DnsQuery.a6 expected])
        else if hostIps.any (fun ip => expectedIps.contains ip) then
          ({ ok := true, method := some "a/aaaa",
             detail := "A/AAAA OK → " ++ String.intercalate ", " hostIps },
           [DnsQuery.cname host, DnsQuery.a4 host, DnsQuery.a6 host,
            DnsQuery.a4 expected, DnsQuery.a6 expected])
        else
          ({ ok := false, method := some "a/aaaa",
             detail := detailAMismatch hostIps expectedIps },
           [DnsQuery.cname host, DnsQuery.a4 host, DnsQuery.a6 host,
            DnsQuery.a4 expected, DnsQuery.a6 expected])

/- ## HTTPS health prober (checkHttpsHealth) -/

/-- Result record { ok, detail } of one HTTPS probe (and of the whole probe). -/
structure ProbeResult where
  ok : Bool
  detail : String
deriving DecidableEq, Repr

/-- The HEALTH_SIGNATURE_HEADER constant of domainValidation.js. -/
def healthSignatureHeader : String := "x-sms-sites"

/-- An HTTPS response as seen by one attempt of checkHttpsHealth: the status
code, the raw value of the signature header (String of headers[...] or the
empty string when absent), and the body as accumulated by the data handler
(the source keeps at most the first 64 bytes; this field is that bounded
read). -/
structure HealthResponse where
  statusCode : Nat
  sigHeader : String
  body : String
deriving DecidableEq, Repr

/-- Detail string of the 200-without-identity-proof failure, built exactly as
the source template around HEALTH_SIGNATURE_HEADER. -/
def detailSignatureMismatch : String :=
  "HTTPS /health returned 200 but did not match signature (missing " ++
    healthSignatureHeader ++ ": 1)"

/-- Detail string of the non-200-status failure. -/
def detailHttpStatus (statusCode : Nat) : String :=
  "HTTPS /health returned status " ++ toString statusCode

/-- Model of the response handler of one attempt of checkHttpsHealth (the
res.on end callback): trim the signature header and the body, accept exactly a
200 with identity proof, and distinguish a 200 without proof from a non-200. -/
def attemptDecision (r : HealthResponse) : ProbeResult :=
  let sigHeader := jsTrim r.sigHeader
  let bodyTrim := jsTrim r.body
  let isOurApp := sigHeader == "1" || bodyTrim == "OK"
  if r.statusCode == 200 && isOurApp then
    { ok := true, detail := "HTTPS /health returned 200 (validated)" }
  else if r.statusCode == 200 then
    { ok := false, detail := detailSignatureMismatch }
  else
    { ok := false, detail := detailHttpStatus r.statusCode }

/-- Model of the retry loop of checkHttpsHealth: attempt i, stop on success,
otherwise wait and recurse while fuel remains, returning the final result, the
number of attempts performed, and the list of waits (each of delayMs). The
attempts stream gives the outcome of each attempt index (an attempt that hits
a network error or timeout resolves to an ok=false result, never rejects). -/
def probeLoop (att : Nat → ProbeResult) (delayMs : Nat) :
    Nat → Nat → ProbeResult × Nat × List Nat
  | i, fuel =>
    let r := att i
    if r.ok then (r, 1, [])
    else
      match fuel with
      | 0 => (r, 1, [])
      | f + 1 =>
        let rest := probeLoop att delayMs (i + 1) f
        (rest.1, rest.2.1 + 1, delayMs :: rest.2.2)

/-- Model of checkHttpsHealth(domain, { retries, retryDelayMs }): empty trimmed
domain returns at once with no attempt; otherwise the retry loop runs attempts
0 .. retries. -/
def checkHttpsHealth (domain : String) (retries delayMs : Nat)
    (att : Nat → ProbeResult) : ProbeResult × Nat × List Nat :=
  if jsTrim domain = "" then ({ ok := false, detail := "Empty domain" }, 0, [])
  else probeLoop att delayMs 0 retries

/-- Default of the retries option of checkHttpsHealth. -/
def defaultRetries : Nat := 2

/-- Default of the retryDelayMs option of checkHttpsHealth. -/
def defaultRetryDelayMs : Nat := 1500

/-- checkHttpsHealth invoked without options, as the orchestrator does. -/
def checkHttpsHealthDefault (domain : String) (att : Nat → ProbeResult) :
    ProbeResult × Nat × List Nat :=
  checkHttpsHealth domain defaultRetries defaultRetryDelayMs att

/- ## Validation orchestrator (POST .../validate-domain in adminSites.js and portal.js) -/

/-- The subset of a sites row the validation routes read and write. -/
structure SiteRow where
  id : Nat
  domain : String
  domain_status : String
  domain_last_checked_at : Option String
deriving DecidableEq, Repr

/-- One database write issued by a validation run. -/
inductive DbWrite where
  | lastChecked (id : Nat) (t : String)
  | status (id : Nat) (s : String)
deriving DecidableEq, Repr

/-- Trace of one validation run: the ordered database writes, and whether the
DNS check and the HTTPS prober were invoked. -/
structure RunTrace where
  writes : List DbWrite
  dnsInvoked : Bool
  httpsInvoked : Bool
deriving DecidableEq, Repr

/-- Model of the shared flow of POST /admin/sites/:id/validate-domain and
POST /portal/sites/:id/validate-domain. Inputs: the loaded row (none models a
404), the attempt timestamp, the DNS check outcome (Except.error models the
call throwing, handled by the route's outer catch as error_generic) and the
HTTPS check outcome (Except.error models checkHttpsHealth rejecting, which the
route's inner catch converts into an ok=false result). The DB status strings
are the source's: the spec names dns_ok_ssl_error as dns_ok_tls_error. -/
def validateRun (siteRow : Option SiteRow) (now : String)
    (dns : Except String DnsResult) (https : Except String ProbeResult) : RunTrace :=
  match siteRow with
  | none => { writes := [], dnsInvoked := false, httpsInvoked := false }
  | some site =>
    let domain := jsToLower (jsTrim site.domain)
    if domain = "" then { writes := [], dnsInvoked := false, httpsInvoked := false }
    else
      let w0 := [DbWrite.lastChecked site.id now]
      match dns with
      | Except.error _ =>
        { writes := w0 ++ [DbWrite.status site.id "error_generic"],
          dnsInvoked := true, httpsInvoked := false }
      | Except.ok d =>
        if d.ok = false then
          { writes := w0 ++ [DbWrite.status site.id "dns_error"],
            dnsInvoked := true, httpsInvoked := false }
        else
          let hr := match https with
            | Except.ok r => r
            | Except.error m => { ok := false, detail := m }
          let newStatus := if hr.ok then "active" else "dns_ok_ssl_error"
          { writes := w0 ++ [DbWrite.status site.id newStatus],
            dnsInvoked := true, httpsInvoked := true }

/-- The status strings a trace wrote, in order. -/
def statusWrites (l : List DbWrite) : List String :=
  l.filterMap fun w =>
    match w with
    | DbWrite.status _ s => some s
    | _ => none

/-- The HTTPS outcome as the route sees it after its inner catch: a rejection
counts as a failed probe. -/
def httpsOutcomeOk (https : Except String ProbeResult) : Bool :=
  match https with
  | Except.ok r => r.ok
  | Except.error _ => false

/- ## Certificate-issuance gatekeeper (GET /caddy-ask in server.js) -/

/-- Model of the domain normalization of /caddy-ask: trim and lowercase the
query value, keep what stands before a colon (strip a port), and strip one
leading www label. -/
def caddyNormalize (rawDomain : String) : String :=
  stripWww (beforeColon (jsToLower (jsTrim rawDomain)))

/-- Model of the anchored regex test of a dotted-quad IPv4 literal: four
dot-separated groups of one to three digits. The split-into-groups reading is
equivalent to the source regex of one group followed by three dot-group
repetitions. -/
def splitOnDots : List Char → List (List Char)
  | [] => [[]]
  | c :: cs =>
    let r := splitOnDots cs
    if c = '.' then [] :: r
    else
      match r with
      | [] => [[c]]
      | g :: gs => (c :: g) :: gs

/-- The IPv4-literal test of /caddy-ask. -/
def isIPv4Literal (s : String) : Bool :=
  let ps := splitOnDots s.data
  ps.length == 4 &&
    ps.all (fun p => !p.isEmpty && decide (p.length ≤ 3) && p.all Char.isDigit)

/-- One character of the conservative hostname charset of /caddy-ask:
lowercase ASCII letter, digit, dot or hyphen. -/
def isHostChar (c : Char) : Bool :=
  (decide ('a' ≤ c) && decide (c ≤ 'z')) || c.isDigit || c == '.' || c == '-'

/-- Model of the anchored one-or-more hostname-charset regex test: nonempty
and every character allowed. -/
def hostCharsetOk (s : String) : Bool :=
  !s.data.isEmpty && s.data.all isHostChar

/-- Model of the /caddy-ask decision as a boolean (HTTP 200 means true, 400 or
403 means false; the DB-error 500 path is out of scope of a registry modelled
as a list). Inputs: the configured secret (an absent CADDY_ASK_TOKEN env var
reads as the empty string), the sites registry, and the raw token and domain
query values. Mirrors the source order: token gate, empty-domain gate,
normalization, localhost, IPv4, charset, registry lookup. -/
def shouldIssueCertificate (secret : String) (registry : List SiteRow)
    (rawToken rawDomain : String) : Bool :=
  if secret = "" then false
  else if jsTrim rawToken ≠ secret then false
  else if jsToLower (jsTrim rawDomain) = "" then false
  else
    let d := caddyNormalize rawDomain
    if d = "localhost" then false
    else if isIPv4Literal d then false
    else if !hostCharsetOk d then false
    else registry.any (fun s => s.domain == d)

/- ## Witness fixtures -/

/-- A registry with one ordinary tenant, used by concrete witnesses. -/
def regW : List SiteRow :=
  [{ id := 1, domain := "example.com", domain_status := "pending",
     domain_last_checked_at := none }]

/-- The same registry after a validation run changed the status fields. -/
def regW2 : List SiteRow :=
  [{ id := 1, domain := "example.com", domain_status := "active",
     domain_last_checked_at := some "2026-02-03T04:05:06Z" }]

/-- A DNS environment where the tenant subdomain has a CNAME to the platform
ingress, used by concrete witnesses. -/
def envCnameW : DnsEnv :=
  { cname := fun h => if h = "sub.example.com" then ["Proxy.Platform.Test."] else []
    a4 := fun _ => []
    a6 := fun _ => [] }

/-- A DNS environment for an apex domain with no CNAME whose A records
intersect the expected target's, used by concrete witnesses. -/
def envApexW : DnsEnv :=
  { cname := fun _ => []
    a4 := fun h =>
      if h = "example.com" then ["203.0.113.10", "203.0.113.11"]
      else if h = "proxy.platform.test" then ["203.0.113.10"]
      else []
    a6 := fun _ => [] }

/- ## Helper lemmas -/

/-- The registry lookup of the gatekeeper only reads domains, so two
registries whose rows agree on id and domain give the same lookup result. -/
lemma any_domain_congr (r1 r2 : List SiteRow)
    (h : List.Forall₂ (fun a b => a.id = b.id ∧ a.domain = b.domain) r1 r2)
    (d : String) :
    r1.any (fun s => s.domain == d) = r2.any (fun s => s.domain == d) := by
  induction h with
  | nil => rfl
  | cons hab _ ih => simp [List.any_cons, hab.2, ih]

/-- An empty trimmed lowered query value stays empty through caddyNormalize. -/
lemma caddyNormalize_of_empty (dom : String) (h : jsToLower (jsTrim dom) = "") :
    caddyNormalize dom = "" := by
  unfold caddyNormalize
  rw [h]
  decide

/- ## Claim theorems: gatekeeper -/

/-- C10: if no gatekeeper pre-shared token is configured (the configured
secret is empty, which is how an absent CADDY_ASK_TOKEN env var reads), the
gatekeeper rejects every request, whatever token and domain are presented:
the certificate-issuance gate fails closed. -/
theorem gate_fails_closed_empty_secret (registry : List SiteRow) (tok dom : String) :
    shouldIssueCertificate "" registry tok dom = false := by
  unfold shouldIssueCertificate
  rw [if_pos rfl]

/-- C9: the decision of shouldIssueCertificate is independent of the tenant
rows' validationStatus (domain_status) and lastCheckedAt
(domain_last_checked_at): two registries whose rows agree on id and domain
yield the same decision for every secret, token and candidate domain, so
issuance can be approved before validation has ever run. -/
theorem gate_ignores_validation_status (r1 r2 : List SiteRow)
    (h : List.Forall₂ (fun a b => a.id = b.id ∧ a.domain = b.domain) r1 r2)
    (secret tok dom : String) :
    shouldIssueCertificate secret r1 tok dom
      = shouldIssueCertificate secret r2 tok dom := by
  simp only [shouldIssueCertificate]
  split_ifs <;> first
    | rfl
    | exact any_domain_congr r1 r2 h (caddyNormalize dom)

/-- Witness for C9: the demo registry before and after a validation run
differs only in domain_status and domain_last_checked_at, and the gatekeeper
decides identically on it. -/
theorem gate_ignores_validation_status_witness :
    List.Forall₂ (fun (a b : SiteRow) => a.id = b.id ∧ a.domain = b.domain) regW regW2 ∧
    shouldIssueCertificate "sek" regW "sek" "example.com"
      = shouldIssueCertificate "sek" regW2 "sek" "example.com" :=
  ⟨by decide, gate_ignores_validation_status regW regW2 (by decide) "sek" "sek" "example.com"⟩

/-- C2: with a configured secret, shouldIssueCertificate accepts exactly when
the trimmed token equals the secret and the normalized candidate (trimmed,
lowercased, port-stripped, www-stripped) is not the reserved localhost
domain, is not a dotted-quad IPv4 literal, passes the [a-z0-9.-]+ charset
test, and occurs as the domain of a registry row; every input failing any of
these checks is rejected. -/
theorem gate_accepts_iff (secret : String) (registry : List SiteRow)
    (tok dom : String) (hsec : secret ≠ "") :
    shouldIssueCertificate secret registry tok dom = true ↔
      (jsTrim tok = secret ∧
        caddyNormalize dom ≠ "localhost" ∧
        isIPv4Literal (caddyNormalize dom) = false ∧
        hostCharsetOk (caddyNormalize dom) = true ∧
        registry.any (fun s => s.domain == caddyNormalize dom) = true) := by
  simp only [shouldIssueCertificate]
  split_ifs with h1 h2 h3 h4 h5 h6
  · exact absurd h1 hsec
  · simp only [Bool.false_eq_true, false_iff]
    intro hc
    exact h2 (by rw [hc.1])
  · have hcn := caddyNormalize_of_empty dom h3
    simp only [Bool.false_eq_true, false_iff]
    intro hc
    rw [hcn] at hc
    exact absurd hc.2.2.2.1 (by decide)
  · simp only [Bool.false_eq_true, false_iff]
    intro hc
    exact hc.2.1 h4
  · simp only [Bool.false_eq_true, false_iff]
    intro hc
    rw [hc.2.2.1] at h5
    exact Bool.false_ne_true h5
  · simp only [Bool.false_eq_true, false_iff]
    intro hc
    rw [hc.2.2.2.1] at h6
    exact absurd h6 (by decide)
  · have h2' : jsTrim tok = secret := not_not.mp h2
    have h5' : isIPv4Literal (caddyNormalize dom) = false := by
      cases hb : isIPv4Literal (caddyNormalize dom) with
      | false => rfl
      | true => exact absurd hb h5
    have h6' : hostCharsetOk (caddyNormalize dom) = true := by
      cases hb : hostCharsetOk (caddyNormalize dom) with
      | false => rw [hb] at h6; exact absurd rfl h6
      | true => rfl
    constructor
    · intro ha
      exact ⟨h2', h4, h5', h6', ha⟩
    · intro hc
      exact hc.2.2.2.2

/-- Witness for C2: the end-to-end scenario of the spec: a valid token and
the candidate WWW.Example.COM:443 normalize to the registered example.com and
the gate accepts. -/
theorem gate_accepts_iff_witness :
    ("sek" : String) ≠ "" ∧
    (shouldIssueCertificate "sek" regW "sek" "WWW.Example.COM:443" = true ↔
      (jsTrim "sek" = "sek" ∧
        caddyNormalize "WWW.Example.COM:443" ≠ "localhost" ∧
        isIPv4Literal (caddyNormalize "WWW.Example.COM:443") = false ∧
        hostCharsetOk (caddyNormalize "WWW.Example.COM:443") = true ∧
        regW.any (fun s => s.domain == caddyNormalize "WWW.Example.COM:443") = true)) :=
  ⟨by decide, gate_accepts_iff "sek" regW "sek" "WWW.Example.COM:443" (by decide)⟩

/- ## Claim theorems: reserved fallback domain (C8, corrected) -/

/-- Counterexample to C8 as stated: the validation routes contain no guard for
the reserved fallback domain. For the seeded localhost site row, a triggered
validation run does invoke the DNS check (and writes a status), contradicting
that the orchestrator never runs the checks against the reserved fallback. -/
theorem orchestrator_localhost_counterexample :
    (validateRun
        (some { id := 1, domain := "localhost", domain_status := "pending",
                domain_last_checked_at := none })
        "2026-02-03T04:05:06Z"
        (Except.ok { ok := false, method := some "cname",
                     detail := "CNAME points to [], expected proxy.platform.test" })
        (Except.ok { ok := false, detail := "unused" })).dnsInvoked = true ∧
    statusWrites (validateRun
        (some { id := 1, domain := "localhost", domain_status := "pending",
                domain_last_checked_at := none })
        "2026-02-03T04:05:06Z"
        (Except.ok { ok := false, method := some "cname",
                     detail := "CNAME points to [], expected proxy.platform.test" })
        (Except.ok { ok := false, detail := "unused" })).writes = ["dns_error"] := by
  constructor <;> decide

/-- C8 amended: the reserved fallback domain (localhost) is never eligible for
certificate issuance: the gatekeeper rejects any request whose normalized
candidate is localhost, unconditionally. The validation orchestrator, however,
has no such guard: it runs the DNS check against every loaded site row with a
nonempty domain, the reserved fallback included. -/
theorem localhost_never_issued_amended :
    (∀ (secret : String) (registry : List SiteRow) (tok dom : String),
      caddyNormalize dom = "localhost" →
      shouldIssueCertificate secret registry tok dom = false) ∧
    (∀ (site : SiteRow) (now : String) (dns : Except String DnsResult)
        (https : Except String ProbeResult),
      jsToLower (jsTrim site.domain) ≠ "" →
      (validateRun (some site) now dns https).dnsInvoked = true) := by
  constructor
  · intro secret registry tok dom hdom
    simp only [shouldIssueCertificate]
    split_ifs <;> rfl
  · intro site now dns https hdom
    simp only [validateRun]
    rw [if_neg hdom]
    cases dns with
    | error e => rfl
    | ok d =>
      by_cases hd : d.ok = false
      · simp only [if_pos hd]
      · simp only [if_neg hd]

/-- Witness for C8 amended: the gate turns away www.localhost:8080 with a
valid token, and a run on the seeded localhost row does invoke the DNS check. -/
theorem localhost_never_issued_amended_witness :
    caddyNormalize "www.localhost:8080" = "localhost" ∧
    shouldIssueCertificate "sek" regW "sek" "www.localhost:8080" = false ∧
    jsToLower (jsTrim ("localhost" : String)) ≠ "" ∧
    (validateRun
        (some { id := 1, domain := "localhost", domain_status := "pending",
                domain_last_checked_at := none })
        "2026-02-03T04:05:06Z"
        (Except.ok { ok := true, method := some "cname", detail := "CNAME OK" })
        (Except.ok { ok := true, detail := "ok" })).dnsInvoked = true :=
  ⟨by decide,
   localhost_never_issued_amended.1 "sek" regW "sek" "www.localhost:8080" (by decide),
   by decide,
   localhost_never_issued_amended.2
     { id := 1, domain := "localhost", domain_status := "pending",
       domain_last_checked_at := none }
     "2026-02-03T04:05:06Z"
     (Except.ok { ok := true, method := some "cname", detail := "CNAME OK" })
     (Except.ok { ok := true, detail := "ok" })
     (by decide)⟩

/- ## Claim theorems: validation orchestrator -/

/-- C1: for every validation run on a loaded site with a nonempty domain whose
DNS check completes: a failed DNS check writes dns_error and the HTTPS prober
is never invoked; a passed DNS check invokes the prober and writes active on
probe success and dns_ok_ssl_error (the spec's dns_ok_tls_error) on probe
failure; and exactly one status is written per run. -/
theorem orchestrator_outcomes (site : SiteRow) (now : String) (d : DnsResult)
    (https : Except String ProbeResult)
    (hdom : jsToLower (jsTrim site.domain) ≠ "") :
    (d.ok = false →
      statusWrites (validateRun (some site) now (Except.ok d) https).writes
        = ["dns_error"] ∧
      (validateRun (some site) now (Except.ok d) https).httpsInvoked = false) ∧
    (d.ok = true →
      (validateRun (some site) now (Except.ok d) https).httpsInvoked = true ∧
      (httpsOutcomeOk https = true →
        statusWrites (validateRun (some site) now (Except.ok d) https).writes
          = ["active"]) ∧
      (httpsOutcomeOk https = false →
        statusWrites (validateRun (some site) now (Except.ok d) https).writes
          = ["dns_ok_ssl_error"])) ∧
    (statusWrites (validateRun (some site) now (Except.ok d) https).writes).length
      = 1 := by
  obtain ⟨dok, dmethod, ddetail⟩ := d
  cases dok <;>
    cases https with
    | ok r =>
      obtain ⟨rok, rdetail⟩ := r
      cases rok <;> simp [validateRun, statusWrites, httpsOutcomeOk, hdom]
    | error m => simp [validateRun, statusWrites, httpsOutcomeOk, hdom]

/-- Witness for C1: end-to-end scenario three of the spec: correct CNAME, but
the health probe answers 200 without identity proof, and the run writes
exactly dns_ok_ssl_error. -/
theorem orchestrator_outcomes_witness :
    jsToLower (jsTrim ("example.com" : String)) ≠ "" ∧
    (({ ok := true, method := some "cname", detail := "CNAME OK" } : DnsResult).ok
        = true →
      (validateRun
          (some { id := 7, domain := "example.com", domain_status := "pending",
                  domain_last_checked_at := none })
          "2026-02-03T04:05:06Z"
          (Except.ok { ok := true, method := some "cname", detail := "CNAME OK" })
          (Except.ok (attemptDecision ⟨200, "", "Hello"⟩))).httpsInvoked = true ∧
      (httpsOutcomeOk (Except.ok (attemptDecision ⟨200, "", "Hello"⟩)) = true →
        statusWrites (validateRun
            (some { id := 7, domain := "example.com", domain_status := "pending",
                    domain_last_checked_at := none })
            "2026-02-03T04:05:06Z"
            (Except.ok { ok := true, method := some "cname", detail := "CNAME OK" })
            (Except.ok (attemptDecision ⟨200, "", "Hello"⟩))).writes = ["active"]) ∧
      (httpsOutcomeOk (Except.ok (attemptDecision ⟨200, "", "Hello"⟩)) = false →
        statusWrites (validateRun
            (some { id := 7, domain := "example.com", domain_status := "pending",
                    domain_last_checked_at := none })
            "2026-02-03T04:05:06Z"
            (Except.ok { ok := true, method := some "cname", detail := "CNAME OK" })
            (Except.ok (attemptDecision ⟨200, "", "Hello"⟩))).writes
          = ["dns_ok_ssl_error"])) ∧
    (statusWrites (validateRun
        (some { id := 7, domain := "example.com", domain_status := "pending",
                domain_last_checked_at := none })
        "2026-02-03T04:05:06Z"
        (Except.ok { ok := true, method := some "cname", detail := "CNAME OK" })
        (Except.ok (attemptDecision ⟨200, "", "Hello"⟩))).writes).length = 1 :=
  ⟨by decide,
   (orchestrator_outcomes
     { id := 7, domain := "example.com", domain_status := "pending",
       domain_last_checked_at := none }
     "2026-02-03T04:05:06Z"
     { ok := true, method := some "cname", detail := "CNAME OK" }
     (Except.ok (attemptDecision ⟨200, "", "Hello"⟩))
     (by decide)).2.1,
   (orchestrator_outcomes
     { id := 7, domain := "example.com", domain_status := "pending",
       domain_last_checked_at := none }
     "2026-02-03T04:05:06Z"
     { ok := true, method := some "cname", detail := "CNAME OK" }
     (Except.ok (attemptDecision ⟨200, "", "Hello"⟩))
     (by decide)).2.2⟩

/-- C7: every validation run that reaches the checks (site loaded, nonempty
domain) writes lastCheckedAt first, before the DNS and HTTPS outcomes can
influence anything, and unconditionally: whatever the DNS and HTTPS outcomes
(including a thrown DNS check), the write log is exactly the lastCheckedAt
write followed by one status write. -/
theorem orchestrator_lastChecked_first (site : SiteRow) (now : String)
    (dns : Except String DnsResult) (https : Except String ProbeResult)
    (hdom : jsToLower (jsTrim site.domain) ≠ "") :
    ∃ s : String,
      (validateRun (some site) now dns https).writes
        = [DbWrite.lastChecked site.id now, DbWrite.status site.id s] := by
  cases dns with
  | error e =>
    exact ⟨"error_generic", by simp [validateRun, hdom]⟩
  | ok d =>
    obtain ⟨dok, dmethod, ddetail⟩ := d
    cases dok with
    | false => exact ⟨"dns_error", by simp [validateRun, hdom]⟩
    | true =>
      cases https with
      | ok r =>
        obtain ⟨rok, rdetail⟩ := r
        cases rok with
        | false => exact ⟨"dns_ok_ssl_error", by simp [validateRun, hdom]⟩
        | true => exact ⟨"active", by simp [validateRun, hdom]⟩
      | error m => exact ⟨"dns_ok_ssl_error", by simp [validateRun, hdom]⟩

/-- Witness for C7: a run whose DNS check throws still logs the attempt
timestamp first, with exactly one status write after it. -/
theorem orchestrator_lastChecked_first_witness :
    jsToLower (jsTrim ("example.com" : String)) ≠ "" ∧
    ∃ s : String,
      (validateRun
          (some { id := 7, domain := "example.com", domain_status := "pending",
                  domain_last_checked_at := none })
          "2026-02-03T04:05:06Z"
          (Except.error "TypeError")
          (Except.ok { ok := true, detail := "ok" })).writes
        = [DbWrite.lastChecked 7 "2026-02-03T04:05:06Z", DbWrite.status 7 s] :=
  ⟨by decide,
   orchestrator_lastChecked_first
     { id := 7, domain := "example.com", domain_status := "pending",
       domain_last_checked_at := none }
     "2026-02-03T04:05:06Z"
     (Except.error "TypeError")
     (Except.ok { ok := true, detail := "ok" })
     (by decide)⟩

/- ## Claim theorems: HTTPS prober attempt decision -/

/-- The non-200 detail always differs from the signature-mismatch detail:
the two templates already disagree at their 24th character. -/
lemma detailHttpStatus_ne_mismatch (c : Nat) :
    detailHttpStatus c ≠ detailSignatureMismatch := by
  intro h
  have hsplit : detailSignatureMismatch
      = "HTTPS /health returned 200 but" ++
        " did not match signature (missing x-sms-sites: 1)" := by decide
  rw [detailHttpStatus, hsplit] at h
  have hd : ("HTTPS /health returned status " : String).data ++ (toString c).data
      = ("HTTPS /health returned 200 but" : String).data ++
        (" did not match signature (missing x-sms-sites: 1)" : String).data :=
    congrArg String.data h
  have hlen : ("HTTPS /health returned status " : String).data.length
      = ("HTTPS /health returned 200 but" : String).data.length := by decide
  have heq := (List.append_inj hd hlen).1
  exact absurd heq (by decide)

/-- C3: one attempt of the prober reports ok exactly when the response status
is 200 and carries platform identity proof (trimmed signature header equal to
the literal 1, or trimmed body equal to OK); a 200 with neither proof yields
ok=false with a detail distinct from the detail of every non-200 failure. -/
theorem attempt_ok_iff (r : HealthResponse) :
    ((attemptDecision r).ok = true ↔
      (r.statusCode = 200 ∧ (jsTrim r.sigHeader = "1" ∨ jsTrim r.body = "OK"))) ∧
    (r.statusCode = 200 → jsTrim r.sigHeader ≠ "1" → jsTrim r.body ≠ "OK" →
      (attemptDecision r).ok = false ∧
      ∀ r2 : HealthResponse, r2.statusCode ≠ 200 →
        (attemptDecision r).detail ≠ (attemptDecision r2).detail) := by
  constructor
  · by_cases h200 : r.statusCode = 200 <;>
      by_cases hsig : jsTrim r.sigHeader = "1" <;>
        by_cases hbody : jsTrim r.body = "OK" <;>
          simp [attemptDecision, h200, hsig, hbody]
  · intro h200 hsig hbody
    have hdec : attemptDecision r
        = { ok := false, detail := detailSignatureMismatch } := by
      simp [attemptDecision, h200, hsig, hbody]
    refine ⟨by rw [hdec], fun r2 h2200 => ?_⟩
    have hdec2 : attemptDecision r2
        = { ok := false, detail := detailHttpStatus r2.statusCode } := by
      simp [attemptDecision, h2200]
    rw [hdec, hdec2]
    intro hc
    exact detailHttpStatus_ne_mismatch r2.statusCode hc.symm

/-- Witness for C3: a 200 answer with neither proof is refused and its detail
differs from the detail of a 503 answer. -/
theorem attempt_ok_iff_witness :
    (((attemptDecision ⟨200, "", "Hello"⟩).ok = true ↔
      ((200 : Nat) = 200 ∧
        (jsTrim "" = "1" ∨ jsTrim "Hello" = "OK"))) ∧
    ((200 : Nat) = 200 → jsTrim "" ≠ "1" → jsTrim "Hello" ≠ "OK" →
      (attemptDecision ⟨200, "", "Hello"⟩).ok = false ∧
      ∀ r2 : HealthResponse, r2.statusCode ≠ 200 →
        (attemptDecision ⟨200, "", "Hello"⟩).detail ≠ (attemptDecision r2).detail)) :=
  attempt_ok_iff ⟨200, "", "Hello"⟩

/- ## Claim theorems: HTTPS prober retry loop -/

/-- When every attempt in the window fails, the loop performs them all, waits
between consecutive attempts, and returns the final attempt's result. -/
lemma probeLoop_all_fail (att : Nat → ProbeResult) (delayMs : Nat) :
    ∀ fuel i, (∀ k, k ≤ fuel → (att (i + k)).ok = false) →
      probeLoop att delayMs i fuel
        = (att (i + fuel), fuel + 1, List.replicate fuel delayMs) := by
  intro fuel
  induction fuel with
  | zero =>
    intro i h
    have h0 := h 0 (Nat.le_refl 0)
    rw [Nat.add_zero] at h0 ⊢
    simp [probeLoop, h0]
  | succ f ih =>
    intro i h
    have h0 := h 0 (Nat.zero_le _)
    rw [Nat.add_zero] at h0
    have hrec := ih (i + 1) (fun k hk => by
      have hh := h (k + 1) (Nat.succ_le_succ hk)
      rwa [show i + (k + 1) = i + 1 + k by omega] at hh)
    simp only [probeLoop, h0, Bool.false_eq_true, if_false, hrec]
    rw [show i + (f + 1) = i + 1 + f by omega, List.replicate_succ]

/-- When the first success is at index j within the window, the loop stops
there: j failing attempts, then the successful one, j waits in between. -/
lemma probeLoop_first_success (att : Nat → ProbeResult) (delayMs : Nat) :
    ∀ fuel i j, j ≤ fuel → (att (i + j)).ok = true →
      (∀ k, k < j → (att (i + k)).ok = false) →
      probeLoop att delayMs i fuel
        = (att (i + j), j + 1, List.replicate j delayMs) := by
  intro fuel
  induction fuel with
  | zero =>
    intro i j hj hok _
    have hj0 : j = 0 := Nat.le_zero.mp hj
    subst hj0
    rw [Nat.add_zero] at hok ⊢
    simp [probeLoop, hok]
  | succ f ih =>
    intro i j hj hok hfail
    cases j with
    | zero =>
      rw [Nat.add_zero] at hok ⊢
      simp [probeLoop, hok]
    | succ j' =>
      have h0 := hfail 0 (Nat.succ_pos j')
      rw [Nat.add_zero] at h0
      have hok' : (att (i + 1 + j')).ok = true := by
        rwa [show i + (j' + 1) = i + 1 + j' by omega] at hok
      have hfail' : ∀ k, k < j' → (att (i + 1 + k)).ok = false := fun k hk => by
        have hh := hfail (k + 1) (Nat.succ_lt_succ hk)
        rwa [show i + (k + 1) = i + 1 + k by omega] at hh
      have hrec := ih (i + 1) j' (Nat.le_of_succ_le_succ hj) hok' hfail'
      simp only [probeLoop, h0, Bool.false_eq_true, if_false, hrec]
      rw [show i + (j' + 1) = i + 1 + j' by omega, List.replicate_succ]

/-- C6: for a nonempty probed domain, the retry loop of checkHttpsHealth
performs up to retries additional attempts after the first, waiting delayMs
between consecutive attempts: if every attempt fails it performs retries+1
attempts with retries waits and returns the final attempt's result; it stops
at the first successful attempt j, having performed j+1 attempts and j waits;
the orchestrator invocation without options uses retries=2 and delay 1500ms;
and with retries=0 it performs exactly one attempt. -/
theorem probe_retry_contract (domain : String) (att : Nat → ProbeResult)
    (retries delayMs : Nat) (hdom : jsTrim domain ≠ "") :
    ((∀ i, i ≤ retries → (att i).ok = false) →
      checkHttpsHealth domain retries delayMs att
        = (att retries, retries + 1, List.replicate retries delayMs)) ∧
    (∀ j, j ≤ retries → (att j).ok = true → (∀ k, k < j → (att k).ok = false) →
      checkHttpsHealth domain retries delayMs att
        = (att j, j + 1, List.replicate j delayMs)) ∧
    (checkHttpsHealthDefault domain att = checkHttpsHealth domain 2 1500 att ∧
      defaultRetries = 2 ∧ defaultRetryDelayMs = 1500) ∧
    (checkHttpsHealth domain 0 delayMs att).2.1 = 1 := by
  refine ⟨?_, ?_, ⟨rfl, rfl, rfl⟩, ?_⟩
  · intro hall
    unfold checkHttpsHealth
    rw [if_neg hdom]
    have := probeLoop_all_fail att delayMs retries 0 (fun k hk => by
      have := hall k hk
      rwa [Nat.zero_add])
    rwa [Nat.zero_add] at this
  · intro j hj hok hfail
    unfold checkHttpsHealth
    rw [if_neg hdom]
    have := probeLoop_first_success att delayMs retries 0 j hj
      (by rwa [Nat.zero_add]) (fun k hk => by
        have := hfail k hk
        rwa [Nat.zero_add])
    rwa [Nat.zero_add] at this
  · unfold checkHttpsHealth
    rw [if_neg hdom]
    cases hok : (att 0).ok <;> simp [probeLoop, hok]

/-- Witness for C6: with attempts that fail at index 0 and 1 and succeed at
index 2, the default invocation performs all three attempts with two waits and
returns the last result. -/
theorem probe_retry_contract_witness :
    jsTrim ("example.com" : String) ≠ "" ∧
    ((∀ i, i ≤ 2 →
        ((fun n => if n < 2 then ProbeResult.mk false "ECONNREFUSED"
          else ProbeResult.mk true "HTTPS /health returned 200 (validated)") i).ok
          = false) →
      checkHttpsHealth "example.com" 2 1500
        (fun n => if n < 2 then ProbeResult.mk false "ECONNREFUSED"
          else ProbeResult.mk true "HTTPS /health returned 200 (validated)")
        = ((fun n => if n < 2 then ProbeResult.mk false "ECONNREFUSED"
            else ProbeResult.mk true "HTTPS /health returned 200 (validated)") 2,
           3, List.replicate 2 1500)) ∧
    (∀ j, j ≤ 2 →
      ((fun n => if n < 2 then ProbeResult.mk false "ECONNREFUSED"
        else ProbeResult.mk true "HTTPS /health returned 200 (validated)") j).ok
        = true →
      (∀ k, k < j →
        ((fun n => if n < 2 then ProbeResult.mk false "ECONNREFUSED"
          else ProbeResult.mk true "HTTPS /health returned 200 (validated)") k).ok
          = false) →
      checkHttpsHealth "example.com" 2 1500
        (fun n => if n < 2 then ProbeResult.mk false "ECONNREFUSED"
          else ProbeResult.mk true "HTTPS /health returned 200 (validated)")
        = ((fun n => if n < 2 then ProbeResult.mk false "ECONNREFUSED"
            else ProbeResult.mk true "HTTPS /health returned 200 (validated)") j,
           j + 1, List.replicate j 1500)) ∧
    (checkHttpsHealthDefault "example.com"
        (fun n => if n < 2 then ProbeResult.mk false "ECONNREFUSED"
          else ProbeResult.mk true "HTTPS /health returned 200 (validated)")
      = checkHttpsHealth "example.com" 2 1500
        (fun n => if n < 2 then ProbeResult.mk false "ECONNREFUSED"
          else ProbeResult.mk true "HTTPS /health returned 200 (validated)") ∧
      defaultRetries = 2 ∧ defaultRetryDelayMs = 1500) ∧
    (checkHttpsHealth "example.com" 0 1500
        (fun n => if n < 2 then ProbeResult.mk false "ECONNREFUSED"
          else ProbeResult.mk true "HTTPS /health returned 200 (validated)")).2.1
      = 1 :=
  ⟨by decide,
   probe_retry_contract "example.com"
     (fun n => if n < 2 then ProbeResult.mk false "ECONNREFUSED"
       else ProbeResult.mk true "HTTPS /health returned 200 (validated)")
     2 1500 (by decide)⟩

/- ## Claim theorems: DNS resolver branches -/

/-- Strings whose first characters differ are different. -/
lemma string_head_ne (a b : String) (c1 c2 : Char)
    (ha : a.data.head? = some c1) (hb : b.data.head? = some c2) (hne : c1 ≠ c2) :
    a ≠ b := by
  intro he
  rw [he] at ha
  rw [ha] at hb
  exact hne (Option.some.inj hb)

/-- The head character of an append is the head of its left part. -/
lemma data_head_append (s t : String) (c : Char) (h : s.data.head? = some c) :
    (s ++ t).data.head? = some c := by
  show (s.data ++ t.data).head? = some c
  cases hs : s.data with
  | nil => rw [hs] at h; exact absurd h (by simp)
  | cons a l => rw [hs] at h; simpa using h

/-- The three diagnostic details of the A/AAAA branch are pairwise distinct:
their templates open with distinct characters. -/
lemma dns_details_distinct (h2 e2 : String) (ips1 ips2 : List String) :
    detailNoARecords h2 ≠ detailAMismatch ips1 ips2 ∧
    detailExpectedNoA e2 ≠ detailAMismatch ips1 ips2 ∧
    detailNoARecords h2 ≠ detailExpectedNoA e2 := by
  have hN : (detailNoARecords h2).data.head? = some 'N' := by
    unfold detailNoARecords
    exact data_head_append _ _ _ (by decide)
  have hE : (detailExpectedNoA e2).data.head? = some 'E' := by
    unfold detailExpectedNoA
    exact data_head_append _ _ _ (data_head_append _ _ _ (by decide))
  have hA : (detailAMismatch ips1 ips2).data.head? = some 'A' := by
    unfold detailAMismatch
    exact data_head_append _ _ _ (data_head_append _ _ _ (data_head_append _ _ _
      (data_head_append _ _ _ (by decide))))
  exact ⟨string_head_ne _ _ _ _ hN hA (by decide),
    string_head_ne _ _ _ _ hE hA (by decide),
    string_head_ne _ _ _ _ hN hE (by decide)⟩

/-- C4: when the CNAME lookup of the (nonempty) normalized candidate returns a
nonempty target set, checkDnsTarget answers from that set alone: ok with
method cname exactly when some normalized target equals the configured
expected target, and on mismatch it fails definitively having performed no
A/AAAA lookup at all. -/
theorem dns_cname_definitive (env : DnsEnv) (expected domain : String)
    (hhost : normHost domain ≠ "")
    (hcn : resolveCnames env (normHost domain) ≠ []) :
    ((∃ c ∈ resolveCnames env (normHost domain), c = expected) →
      (checkDnsTarget env expected domain).1.ok = true ∧
      (checkDnsTarget env expected domain).1.method = some "cname") ∧
    ((¬ ∃ c ∈ resolveCnames env (normHost domain), c = expected) →
      (checkDnsTarget env expected domain).1.ok = false ∧
      (checkDnsTarget env expected domain).2
        = [DnsQuery.cname (normHost domain)]) := by
  simp only [checkDnsTarget]
  rw [if_neg hhost, if_pos hcn]
  constructor
  · intro hex
    obtain ⟨c, hc, hce⟩ := hex
    have hany : ((resolveCnames env (normHost domain)).any
        (fun c => c == expected)) = true := by
      rw [List.any_eq_true]
      exact ⟨c, hc, by rw [beq_iff_eq]; exact hce⟩
    rw [if_pos hany]
    exact ⟨rfl, rfl⟩
  · intro hno
    have hany : ((resolveCnames env (normHost domain)).any
        (fun c => c == expected)) = false := by
      rw [List.any_eq_false]
      intro x hx
      rw [beq_iff_eq]
      exact fun he => hno ⟨x, hx, he⟩
    rw [if_neg (by rw [hany]; exact Bool.false_ne_true)]
    exact ⟨rfl, rfl⟩

/-- Witness for C4: the witness environment answers the tenant lookup with a
CNAME that normalizes to the expected target, and checkDnsTarget accepts by
the cname method. -/
theorem dns_cname_definitive_witness :
    normHost "Sub.Example.COM." ≠ "" ∧
    resolveCnames envCnameW (normHost "Sub.Example.COM.") ≠ [] ∧
    (((∃ c ∈ resolveCnames envCnameW (normHost "Sub.Example.COM."),
        c = "proxy.platform.test") →
      (checkDnsTarget envCnameW "proxy.platform.test" "Sub.Example.COM.").1.ok
        = true ∧
      (checkDnsTarget envCnameW "proxy.platform.test" "Sub.Example.COM.").1.method
        = some "cname") ∧
    ((¬ ∃ c ∈ resolveCnames envCnameW (normHost "Sub.Example.COM."),
        c = "proxy.platform.test") →
      (checkDnsTarget envCnameW "proxy.platform.test" "Sub.Example.COM.").1.ok
        = false ∧
      (checkDnsTarget envCnameW "proxy.platform.test" "Sub.Example.COM.").2
        = [DnsQuery.cname (normHost "Sub.Example.COM.")])) :=
  ⟨by decide, by decide,
   dns_cname_definitive envCnameW "proxy.platform.test" "Sub.Example.COM."
     (by decide) (by decide)⟩

/-- C5: when the (nonempty) normalized candidate has no CNAME records,
checkDnsTarget falls back to comparing address sets: it succeeds with method
a/aaaa exactly when the candidate's and the expected target's A/AAAA sets
intersect, resolving both sides (the expected target once the candidate set
is nonempty); a candidate with no addresses and an expected target with no
addresses each fail with their own diagnostic detail, and the three failure
details of this branch are pairwise distinct. -/
theorem dns_a_aaaa_fallback (env : DnsEnv) (expected domain : String)
    (hhost : normHost domain ≠ "")
    (hcn : resolveCnames env (normHost domain) = []) :
    ((checkDnsTarget env expected domain).1.ok = true ↔
      ∃ ip ∈ resolveIps env (normHost domain), ip ∈ resolveIps env expected) ∧
    ((checkDnsTarget env expected domain).1.ok = true →
      (checkDnsTarget env expected domain).1.method = some "a/aaaa") ∧
    (resolveIps env (normHost domain) ≠ [] →
      (checkDnsTarget env expected domain).2
        = [DnsQuery.cname (normHost domain), DnsQuery.a4 (normHost domain),
           DnsQuery.a6 (normHost domain), DnsQuery.a4 expected,
           DnsQuery.a6 expected]) ∧
    (resolveIps env (normHost domain) = [] →
      (checkDnsTarget env expected domain).1.ok = false ∧
      (checkDnsTarget env expected domain).1.detail
        = detailNoARecords (normHost domain)) ∧
    (resolveIps env (normHost domain) ≠ [] → resolveIps env expected = [] →
      (checkDnsTarget env expected domain).1.ok = false ∧
      (checkDnsTarget env expected domain).1.detail = detailExpectedNoA expected) ∧
    (∀ h2 e2 : String, ∀ ips1 ips2 : List String,
      detailNoARecords h2 ≠ detailAMismatch ips1 ips2 ∧
      detailExpectedNoA e2 ≠ detailAMismatch ips1 ips2 ∧
      detailNoARecords h2 ≠ detailExpectedNoA e2) := by
  have hcne : ¬ (resolveCnames env (normHost domain) ≠ []) := fun h => h hcn
  simp only [checkDnsTarget]
  rw [if_neg hhost, if_neg hcne]
  by_cases hH : resolveIps env (normHost domain) = []
  · rw [if_pos hH]
    refine ⟨?_, ?_, ?_, fun _ => ⟨rfl, rfl⟩, ?_, dns_details_distinct⟩
    · rw [hH]
      simp
    · intro hc
      exact absurd hc Bool.false_ne_true
    · intro hc
      exact absurd hH hc
    · intro hc
      exact absurd hH hc
  · rw [if_neg hH]
    by_cases hE : resolveIps env expected = []
    · rw [if_pos hE]
      refine ⟨?_, ?_, fun _ => rfl, fun hc => absurd hc hH, ?_,
        dns_details_distinct⟩
      · rw [hE]
        simp
      · intro hc
        exact absurd hc Bool.false_ne_true
      · intro _ _
        exact ⟨rfl, rfl⟩
    · rw [if_neg hE]
      by_cases hI : ((resolveIps env (normHost domain)).any
          (fun ip => (resolveIps env expected).contains ip)) = true
      · rw [if_pos hI]
        refine ⟨?_, fun _ => rfl, fun _ => rfl, fun hc => absurd hc hH, ?_,
          dns_details_distinct⟩
        · simp only [true_iff]
          rw [List.any_eq_true] at hI
          obtain ⟨ip, hip, hmem⟩ := hI
          exact ⟨ip, hip, by simpa using hmem⟩
        · intro _ hc
          exact absurd hc hE
      · rw [if_neg hI]
        refine ⟨?_, ?_, fun _ => rfl, fun hc => absurd hc hH, ?_,
          dns_details_distinct⟩
        · simp only [Bool.false_eq_true, false_iff]
          intro hex
          obtain ⟨ip, hip, hmem⟩ := hex
          apply hI
          rw [List.any_eq_true]
          exact ⟨ip, hip, List.elem_eq_true_of_mem hmem⟩
        · intro hc
          exact absurd hc Bool.false_ne_true
        · intro _ hc
          exact absurd hc hE

/-- Witness for C5: an apex domain with no CNAME whose A records intersect the
expected target's A records passes by the a/aaaa method. -/
theorem dns_a_aaaa_fallback_witness :
    normHost "example.com" ≠ "" ∧
    resolveCnames envApexW (normHost "example.com") = [] ∧
    (((checkDnsTarget envApexW "proxy.platform.test" "example.com").1.ok = true ↔
      ∃ ip ∈ resolveIps envApexW (normHost "example.com"),
        ip ∈ resolveIps envApexW "proxy.platform.test") ∧
    ((checkDnsTarget envApexW "proxy.platform.test" "example.com").1.ok = true →
      (checkDnsTarget envApexW "proxy.platform.test" "example.com").1.method
        = some "a/aaaa") ∧
    (resolveIps envApexW (normHost "example.com") ≠ [] →
      (checkDnsTarget envApexW "proxy.platform.test" "example.com").2
        = [DnsQuery.cname (normHost "example.com"),
           DnsQuery.a4 (normHost "example.com"),
           DnsQuery.a6 (normHost "example.com"),
           DnsQuery.a4 "proxy.platform.test", DnsQuery.a6 "proxy.platform.test"]) ∧
    (resolveIps envApexW (normHost "example.com") = [] →
      (checkDnsTarget envApexW "proxy.platform.test" "example.com").1.ok = false ∧
      (checkDnsTarget envApexW "proxy.platform.test" "example.com").1.detail
        = detailNoARecords (normHost "example.com")) ∧
    (resolveIps envApexW (normHost "example.com") ≠ [] →
      resolveIps envApexW "proxy.platform.test" = [] →
      (checkDnsTarget envApexW "proxy.platform.test" "example.com").1.ok = false ∧
      (checkDnsTarget envApexW "proxy.platform.test" "example.com").1.detail
        = detailExpectedNoA "proxy.platform.test") ∧
    (∀ h2 e2 : String, ∀ ips1 ips2 : List String,
      detailNoARecords h2 ≠ detailAMismatch ips1 ips2 ∧
      detailExpectedNoA e2 ≠ detailAMismatch ips1 ips2 ∧
      detailNoARecords h2 ≠ detailExpectedNoA e2)) :=
  ⟨by decide, by decide,
   dns_a_aaaa_fallback envApexW "proxy.platform.test" "example.com"
     (by decide) (by decide)⟩
